import Mathlib

/-!
Verification of the PSSST v1 cipher-suite core (`v1pssst.go`).

A shallow embedding of the PSSST X25519-AES128GCM-SHA256 core from
`v1pssst.go` of `nickovs/gopssst`.  Byte strings are `List Nat` (each
element a byte value).  The cryptographic primitives (X25519, SHA-256,
AES-128-GCM seal/open) are parameters gathered in a `Prims` record, so
that the theorems quantify over them and assume only the algebraic
facts (DH agreement, AEAD round-trip, output lengths) at the concrete
values where an execution needs them.  Executable toy primitives
(`toyPrims`) instantiate the record for witnesses and counterexamples.

Go behaviour is modelled explicitly:
* a Go slice expression `b[lo:hi]` out of range is a runtime panic,
  modelled by `goSlice` returning `none` and the `Outcome.panic`
  constructor;
* `copy(dst, src)` is `goCopy`;
* the one-shot reply closures (which nil their captured `aesgcm` after
  use) are modelled by explicit state passing: a context record whose
  `aesgcm` field is `some key` while usable and `none` after use, and
  handler functions returning the result together with the new context;
* the process randomness (`crypto/rand.Reader`) is an explicit byte
  stream argument `osRandom`; an injected `io.Reader` is an
  `Option Bytes` argument to the scalar generator.
-/

namespace Gopssst

abbrev Bytes := List Nat

/-- Go slice expression `b[lo:hi]` (with `cap b = b.length`): defined when
`lo ≤ hi ≤ b.length`, otherwise a runtime panic (`none`). -/
def goSlice (b : Bytes) (lo hi : Nat) : Option Bytes :=
  if lo ≤ hi ∧ hi ≤ b.length then some ((b.drop lo).take (hi - lo)) else none

/-- Go `copy(dst, src)`: overwrites the first `min |dst| |src|` elements of
`dst` with those of `src` and returns the updated `dst`. -/
def goCopy (dst src : Bytes) : Bytes :=
  src.take dst.length ++ dst.drop src.length

/-- Result of running a piece of Go code: a value, a returned error
(carrying the `PSSSTError` message, or a stand-in message for an error
propagated from a library call), or a runtime panic. -/
inductive Outcome (α : Type) where
  | ok : α → Outcome α
  | error : String → Outcome α
  | panic : Outcome α
deriving DecidableEq, Repr

/-- Whether an `Outcome` is a success. -/
def Outcome.isOk {α : Type} : Outcome α → Bool
  | .ok _ => true
  | _ => false

/-- Modelled from the spec: the 4-byte packet header.  The Go `header`
struct and its serialisation live in a file of the repository that is not
part of the provided source; the spec fixes the wire layout as big-endian
`Flags` (2 bytes), `CipherSuite` (1 byte), `Reserved` (1 byte, zero on
send and ignored on receive). -/
structure Header where
  flags : Nat
  cipherSuite : Nat
  reserved : Nat
deriving DecidableEq, Repr

/-- Modelled from the spec: the REPLY flag is bit 0 of `Flags`. -/
def flagsReply : Nat := 1

/-- Modelled from the spec: the CLIENT_AUTH flag is bit 1 of `Flags`. -/
def flagsClientAuth : Nat := 2

/-- Modelled from the spec: the suite identifier `0x01` is
X25519-AES128GCM-SHA256, the only defined suite. -/
def CipherSuiteX25519AESGCM : Nat := 1

/-- Modelled from the spec: `binary.Write(_, binary.BigEndian, h)` for the
4-byte header. -/
def encodeHeader (h : Header) : Bytes :=
  [h.flags / 256 % 256, h.flags % 256, h.cipherSuite % 256, h.reserved % 256]

/-- Modelled from the spec: `binary.Read(_, binary.BigEndian, &h)` consumes
the first 4 bytes of the input and fails (an io error, not a panic) when
fewer than 4 bytes are available. -/
def decodeHeader (b : Bytes) : Option Header :=
  match b with
  | b0 :: b1 :: b2 :: b3 :: _ => some ⟨b0 * 256 + b1, b2, b3⟩
  | _ => none

/-- The abstract cryptographic primitives of the suite.  `dh s p` is
`curve25519.X25519(s, p)` (`none` is the library's error return);
`sha256` is the SHA-256 digest; `aeadSeal key nonce plaintext ad` and
`aeadOpen key nonce ciphertext ad` are AES-128-GCM `Seal`/`Open` (with
`Open`'s tag-check failure as `none`). -/
structure Prims where
  dh : Bytes → Bytes → Option Bytes
  basepoint : Bytes
  sha256 : Bytes → Bytes
  aeadSeal : Bytes → Bytes → Bytes → Bytes → Bytes
  aeadOpen : Bytes → Bytes → Bytes → Bytes → Option Bytes

/-- RFC 7748 §5 clamping as in `generateX22519Private`:
`priv[0] &= 248; priv[31] &= 127; priv[31] |= 64`. -/
def clamp (priv : Bytes) : Bytes :=
  let p1 := priv.set 0 (Nat.land (priv.getD 0 0) 248)
  p1.set 31 (Nat.lor (Nat.land (p1.getD 31 0) 127) 64)

/-- Scalar generation `generateX22519Private(random)`: when `random` is nil the OS CSPRNG
(`rand.Reader`, modelled as the explicit stream `osRandom`) is used;
reads 32 bytes (`io.ReadFull` fails when fewer are available) and clamps
them. -/
def generateX22519Private (random : Option Bytes) (osRandom : Bytes) :
    Option Bytes :=
  let src := match random with
    | none => osRandom
    | some r => r
  if src.length < 32 then none
  else some (clamp (src.take 32))

/-- ASCII bytes of `"RQST"`. -/
def asciiRQST : Bytes := [82, 81, 83, 84]

/-- ASCII bytes of `"RPLY"`. -/
def asciiRPLY : Bytes := [82, 80, 76, 89]

/-- The KDF `kdfX25519AESGCM128`: hash `dhParam || sharedSecret` with SHA-256,
take the key as the first 16 bytes and build the two nonces by copying
8 derived bytes into a fresh zeroed 8-byte buffer (`make` + `copy`, as in
the source) and appending the 4-byte direction tag. -/
def kdfX25519AESGCM128 (P : Prims) (dhParam sharedSecret : Bytes) :
    Bytes × Bytes × Bytes :=
  let derivedBytes := P.sha256 (dhParam ++ sharedSecret)
  let key := derivedBytes.take 16
  let iv_c := goCopy (List.replicate 8 0) ((derivedBytes.drop 16).take 8)
                ++ asciiRQST
  let iv_s := goCopy (List.replicate 8 0) ((derivedBytes.drop 24).take 8)
                ++ asciiRPLY
  (key, iv_c, iv_s)

/-- The KDF exactly as the spec words it: with `H = SHA-256(dh_param ||
shared_secret)`, the key is `H[0..16]`, the client nonce is
`H[16..24] || "RQST"` and the server nonce is `H[24..32] || "RPLY"`. -/
def specKdf (P : Prims) (dhParam sharedSecret : Bytes) :
    Bytes × Bytes × Bytes :=
  let H := P.sha256 (dhParam ++ sharedSecret)
  (H.take 16,
   ((H.drop 16).take 8) ++ asciiRQST,
   ((H.drop 24).take 8) ++ asciiRPLY)

/-- The client context `clientX25519AESGCM128`. -/
structure clientX25519AESGCM128 where
  ServerPublicKey : Bytes
  ClientPrivateKey : Option Bytes
  clientPublicKey : Option Bytes
  clientServerPublicKey : Option Bytes
deriving DecidableEq, Repr

/-- The server context `serverX22519AESGCM128`. -/
structure serverX22519AESGCM128 where
  ServerPrivateKey : Bytes
deriving DecidableEq, Repr

/-- The state captured by the client-side reply closure: the AEAD key
schedule (`some key` while usable, `none` once the closure has nilled
`aesgcm`), the client public key field read by the closure, and the
captured `dhParam` and server nonce. -/
structure ClientReplyCtx where
  aesgcm : Option Bytes
  clientPublicKey : Option Bytes
  dhParam : Bytes
  serverNonce : Bytes
deriving DecidableEq, Repr

/-- The state captured by the server-side reply closure. -/
structure ServerReplyCtx where
  aesgcm : Option Bytes
  hasClientAuth : Bool
  dhParam : Bytes
  serverNonce : Bytes
deriving DecidableEq, Repr

/-- The reply-decoding closure returned by `PackOutgoing`, with the
closure's mutable capture made explicit: it takes its context and
returns the result together with the updated context (`aesgcm` is set to
`none` exactly when the call reaches the `aesgcm.Open` line). -/
def clientReplyHandler (P : Prims) (ctx : ClientReplyCtx)
    (replyPacketBytes : Bytes) : Outcome Bytes × ClientReplyCtx :=
  match ctx.aesgcm with
  | none => (.error "reply handler already used", ctx)
  | some key =>
    match decodeHeader replyPacketBytes with
    | none => (.error "header read failed", ctx)
    | some replyHeader =>
      if Nat.land replyHeader.flags flagsReply = 0 then
        (.error "Packet is not a reply", ctx)
      else if (ctx.clientPublicKey.isNone
                != (Nat.land replyHeader.flags flagsClientAuth == 0)) then
        (.error "Reply client auth mismatch", ctx)
      else if replyHeader.cipherSuite ≠ CipherSuiteX25519AESGCM then
        (.error "Unsuported cipher suite", ctx)
      else
        match goSlice replyPacketBytes 4 36 with
        | none => (.panic, ctx)
        | some dhp =>
          if dhp ≠ ctx.dhParam then
            (.error "Request/reply mismatch", ctx)
          else
            let usedCtx := { ctx with aesgcm := none }
            match P.aeadOpen key ctx.serverNonce (replyPacketBytes.drop 36)
                    (replyPacketBytes.take 4) with
            | none => (.error "cipher: message authentication failed", usedCtx)
            | some data => (.ok data, usedCtx)

/-- The flags of the reply header built by the server reply closure:
`flagsReply`, or-ed with `flagsClientAuth` when the request carried it. -/
def serverReplyFlags (hasClientAuth : Bool) : Nat :=
  if hasClientAuth then Nat.lor flagsReply flagsClientAuth else flagsReply

/-- The reply-encoding closure returned by `UnpackIncoming`, with the
closure's mutable capture made explicit.  `binary.Write` into a fresh
`bytes.Buffer` cannot fail, so the only error is the one-shot guard. -/
def serverReplyHandler (P : Prims) (ctx : ServerReplyCtx) (data : Bytes) :
    Outcome Bytes × ServerReplyCtx :=
  match ctx.aesgcm with
  | none => (.error "reply handler already used", ctx)
  | some key =>
    let replyHeader : Header :=
      ⟨serverReplyFlags ctx.hasClientAuth, CipherSuiteX25519AESGCM, 0⟩
    let headerBytes := encodeHeader replyHeader
    let ciphertext := P.aeadSeal key ctx.serverNonce data (headerBytes.take 4)
    (.ok (headerBytes ++ ctx.dhParam ++ ciphertext),
     { ctx with aesgcm := none })

/-- The client operation `PackOutgoing`.  The ephemeral scalar is generated with
`generateX22519Private(nil)` — the source passes a nil reader, so the OS
stream is always used.  In client-auth mode the lazily cached client
public key and client-server DH product are computed when the cache is
empty, the plaintext is extended to
`client_pub(32) || ephemeral(32) || data` (via `make` + `copy`), and
`dh_param = X25519(e, client_pub)`, `shared_secret = X25519(e,
client_server)`; anonymously `dh_param = X25519(e, base)` and
`shared_secret = X25519(e, server_pub)`.  The packet is
`header || dh_param || Seal(key, client_nonce, plaintext, header)`. -/
def PackOutgoing (P : Prims) (client : clientX25519AESGCM128) (data : Bytes)
    (osRandom : Bytes) : Outcome (Bytes × ClientReplyCtx) :=
  match generateX22519Private none osRandom with
  | none => .error "RNG read failed"
  | some sessionSecret =>
    let requestHeader : Header := ⟨0, CipherSuiteX25519AESGCM, 0⟩
    let authStep : Outcome (Header × Bytes × Bytes × Bytes × Option Bytes) :=
      match client.ClientPrivateKey with
      | some clientPriv =>
        let hdr := { requestHeader with
                      flags := Nat.lor requestHeader.flags flagsClientAuth }
        let caches : Outcome (Bytes × Bytes) :=
          match client.clientPublicKey with
          | some cpk => .ok (cpk, client.clientServerPublicKey.getD [])
          | none =>
            match P.dh clientPriv P.basepoint with
            | none => .error "DH failed"
            | some cpk =>
              match P.dh clientPriv client.ServerPublicKey with
              | none => .error "DH failed"
              | some cspk => .ok (cpk, cspk)
        match caches with
        | .error m => .error m
        | .panic => .panic
        | .ok (cpk, cspk) =>
          match P.dh sessionSecret cpk with
          | none => .error "DH failed"
          | some dhParam =>
            match P.dh sessionSecret cspk with
            | none => .error "DH failed"
            | some sharedSecret =>
              let extendedData :=
                goCopy (List.replicate 32 0) cpk
                  ++ goCopy (List.replicate 32 0) sessionSecret
                  ++ data
              .ok (hdr, dhParam, sharedSecret, extendedData, some cpk)
      | none =>
        match P.dh sessionSecret P.basepoint with
        | none => .error "DH failed"
        | some dhParam =>
          match P.dh sessionSecret client.ServerPublicKey with
          | none => .error "DH failed"
          | some sharedSecret =>
            .ok (requestHeader, dhParam, sharedSecret, data,
                 client.clientPublicKey)
    match authStep with
    | .error m => .error m
    | .panic => .panic
    | .ok (hdr, dhParam, sharedSecret, payload, cpkOut) =>
      let kdfOut := kdfX25519AESGCM128 P dhParam sharedSecret
      let symetricKey := kdfOut.1
      let clientNonce := kdfOut.2.1
      let serverNonce := kdfOut.2.2
      if symetricKey.length ≠ 16 then .error "crypto/aes: invalid key size"
      else
        let headerBytes := encodeHeader hdr
        let ciphertext :=
          P.aeadSeal symetricKey clientNonce payload (headerBytes.take 4)
        .ok (headerBytes ++ dhParam ++ ciphertext,
             ⟨some symetricKey, cpkOut, dhParam, serverNonce⟩)

/-- The server operation `UnpackIncoming`: parse the header (an io error on fewer than
4 bytes), reject REPLY-flagged packets, then unknown suites; extract
`dh_param = packet[4:36]` (a panic when the packet is shorter than
36 bytes), run the server DH and the KDF, AEAD-open the remainder, and in
client-auth mode slice the opened payload (a panic when it is shorter
than 64 bytes) and check that the embedded pair reconstructs
`dh_param`. -/
def UnpackIncoming (P : Prims) (server : serverX22519AESGCM128)
    (packetBytes : Bytes) :
    Outcome (Bytes × Option Bytes × ServerReplyCtx) :=
  match decodeHeader packetBytes with
  | none => .error "header read failed"
  | some requestHeader =>
    if Nat.land requestHeader.flags flagsReply ≠ 0 then
      .error "Packet is a reply"
    else
      let hasClientAuth := Nat.land requestHeader.flags flagsClientAuth ≠ 0
      if requestHeader.cipherSuite ≠ CipherSuiteX25519AESGCM then
        .error "Unsuported cipher suite"
      else
        match goSlice packetBytes 4 36 with
        | none => .panic
        | some dhParam =>
          match P.dh server.ServerPrivateKey dhParam with
          | none => .error "DH failed"
          | some sharedSecret =>
            let kdfOut := kdfX25519AESGCM128 P dhParam sharedSecret
            let symetricKey := kdfOut.1
            let clientNonce := kdfOut.2.1
            let serverNonce := kdfOut.2.2
            if symetricKey.length ≠ 16 then
              .error "crypto/aes: invalid key size"
            else
              match P.aeadOpen symetricKey clientNonce (packetBytes.drop 36)
                      (packetBytes.take 4) with
              | none => .error "cipher: message authentication failed"
              | some payload =>
                if hasClientAuth then
                  match goSlice payload 0 32, goSlice payload 32 64 with
                  | some clientPublicKeyBytes, some ephemeralKey =>
                    match P.dh ephemeralKey clientPublicKeyBytes with
                    | none => .error "DH failed"
                    | some checkClient =>
                      if checkClient ≠ dhParam then
                        .error "Client authentication failed"
                      else
                        .ok (payload.drop 64, some clientPublicKeyBytes,
                             ⟨some symetricKey, true, dhParam, serverNonce⟩)
                  | _, _ => .panic
                else
                  .ok (payload, none,
                       ⟨some symetricKey, false, dhParam, serverNonce⟩)

/-- Test harness for the request direction: pack a payload with the given
client context and feed the packet to the server, keeping only the
plaintext and the surfaced client public key. -/
def roundtrip (P : Prims) (server : serverX22519AESGCM128)
    (client : clientX25519AESGCM128) (data osRandom : Bytes) :
    Outcome (Bytes × Option Bytes) :=
  match PackOutgoing P client data osRandom with
  | .error m => .error m
  | .panic => .panic
  | .ok (packetBytes, _) =>
    match UnpackIncoming P server packetBytes with
    | .error m => .error m
    | .panic => .panic
    | .ok (plain, cpk, _) => .ok (plain, cpk)

/-! ## Executable toy primitives

A small concrete instantiation of `Prims` used for witnesses and
counterexamples.  The toy DH is exponentiation in the multiplicative
structure of `ZMod`-style arithmetic mod 97 (so DH agreement holds
numerically at every concrete input), points are encoded as 32-byte
strings, the toy hash has 32-byte output, and the toy AEAD appends a
16-byte keyed tag and checks it on open. -/

/-- Encode a number mod 97 as a 32-byte string. -/
def enc32 (n : Nat) : Bytes := n % 97 :: List.replicate 31 0

/-- Toy scalar/point decoding: the first byte. -/
def dec32 (b : Bytes) : Nat := b.headD 0

/-- Toy X25519: `point ^ scalar mod 97`, always defined. -/
def toyDH (scalar point : Bytes) : Option Bytes :=
  some (enc32 (dec32 point ^ dec32 scalar % 97))

/-- Toy SHA-256: a 32-byte digest from a rolling hash of the input. -/
def toySha (x : Bytes) : Bytes :=
  (List.range 32).map
    (fun i => (x.foldl (fun a b => (a * 31 + b + 7) % 251) (x.length + 3) + i) % 251)

/-- Toy AEAD tag: 16 bytes derived from key, nonce, associated data and
plaintext. -/
def toyTag (key nonce ad pt : Bytes) : Bytes :=
  (List.range 16).map
    (fun i =>
      ((key ++ nonce ++ ad ++ pt).foldl (fun a b => (a * 37 + b + 11) % 241)
        (pt.length + 5) + i) % 241)

/-- Toy AEAD seal: ciphertext is the plaintext followed by the 16-byte
tag. -/
def toySeal (key nonce pt ad : Bytes) : Bytes :=
  pt ++ toyTag key nonce ad pt

/-- Toy AEAD open: strip the final 16 bytes and recheck the tag. -/
def toyOpen (key nonce ct ad : Bytes) : Option Bytes :=
  if 16 ≤ ct.length then
    let pt := ct.take (ct.length - 16)
    if ct = toySeal key nonce pt ad then some pt else none
  else none

/-- The toy primitive pack, with basepoint `g = 5`. -/
def toyPrims : Prims :=
  ⟨toyDH, enc32 5, toySha, toySeal, toyOpen⟩

/-- A variant primitive pack whose DH always fails, used to observe that
an execution path consults the DH primitive. -/
def noDhPrims : Prims :=
  ⟨fun _ _ => none, enc32 5, toySha, toySeal, toyOpen⟩

/-- Extract the success value of an `Outcome`, with a default. -/
def Outcome.getOrElse {α : Type} (o : Outcome α) (dflt : α) : α :=
  match o with
  | .ok a => a
  | _ => dflt

/-! Concrete values over `toyPrims` used by witnesses and
counterexamples: a server keypair, a client keypair, OS random streams,
the ephemeral scalars they clamp to, and the derived session material of
the corresponding requests. -/

/-- Concrete server private key (stream of `0x11` bytes, clamped). -/
def tSk : Bytes := clamp (List.replicate 32 17)

/-- Concrete server context. -/
def tServer : serverX22519AESGCM128 := ⟨tSk⟩

/-- Concrete server public key. -/
def tPk : Bytes := (toyPrims.dh tSk toyPrims.basepoint).getD []

/-- Concrete client private key (stream of `0x22` bytes, clamped). -/
def tCsk : Bytes := clamp (List.replicate 32 34)

/-- Concrete client public key. -/
def tCpk : Bytes := (toyPrims.dh tCsk toyPrims.basepoint).getD []

/-- Concrete cached client-server DH product. -/
def tCs : Bytes := (toyPrims.dh tCsk tPk).getD []

/-- Concrete OS random stream for the first request. -/
def tOs : Bytes := List.replicate 32 56

/-- Concrete OS random stream for a second, independent request. -/
def tOs2 : Bytes := List.replicate 32 40

/-- Ephemeral scalar clamped from `tOs`. -/
def tE : Bytes := clamp (List.replicate 32 56)

/-- Ephemeral scalar clamped from `tOs2`. -/
def tE2 : Bytes := clamp (List.replicate 32 40)

/-- Concrete anonymous client context. -/
def tAnonClient : clientX25519AESGCM128 := ⟨tPk, none, none, none⟩

/-- Concrete authenticated client context (caches unpopulated). -/
def tAuthClient : clientX25519AESGCM128 := ⟨tPk, some tCsk, none, none⟩

/-- Anonymous-mode `dh_param` of the first request. -/
def tD : Bytes := (toyPrims.dh tE toyPrims.basepoint).getD []

/-- Anonymous-mode shared secret of the first request. -/
def tSs : Bytes := (toyPrims.dh tE tPk).getD []

/-- Client-auth-mode `dh_param` of the first request. -/
def tDAuth : Bytes := (toyPrims.dh tE tCpk).getD []

/-- Client-auth-mode shared secret of the first request. -/
def tSsAuth : Bytes := (toyPrims.dh tE tCs).getD []

/-- Anonymous-mode `dh_param` of the second request. -/
def tDB : Bytes := (toyPrims.dh tE2 toyPrims.basepoint).getD []

/-- Anonymous-mode shared secret of the second request. -/
def tSsB : Bytes := (toyPrims.dh tE2 tPk).getD []

/-- KDF output for the first anonymous request. -/
def tKdf : Bytes × Bytes × Bytes := kdfX25519AESGCM128 toyPrims tD tSs

/-- KDF output for the first client-auth request. -/
def tKdfAuth : Bytes × Bytes × Bytes :=
  kdfX25519AESGCM128 toyPrims tDAuth tSsAuth

/-- KDF output for the second anonymous request. -/
def tKdfB : Bytes × Bytes × Bytes := kdfX25519AESGCM128 toyPrims tDB tSsB

/-- Server reply context of the first anonymous request. -/
def tSctx : ServerReplyCtx := ⟨some tKdf.1, false, tD, tKdf.2.2⟩

/-- Client reply context of the first anonymous request. -/
def tCctx : ClientReplyCtx := ⟨some tKdf.1, none, tD, tKdf.2.2⟩

/-- Server reply context of the first client-auth request. -/
def tSctxAuth : ServerReplyCtx := ⟨some tKdfAuth.1, true, tDAuth, tKdfAuth.2.2⟩

/-- Client reply context of the first client-auth request. -/
def tCctxAuth : ClientReplyCtx :=
  ⟨some tKdfAuth.1, some tCpk, tDAuth, tKdfAuth.2.2⟩

/-- Server reply context of the second anonymous request. -/
def tSctxB : ServerReplyCtx := ⟨some tKdfB.1, false, tDB, tKdfB.2.2⟩

/-- Reply packet for the first anonymous request (payload `"ok"`). -/
def tReply : Bytes :=
  ((serverReplyHandler toyPrims tSctx [111, 107]).1).getOrElse []

/-- Reply packet for the first client-auth request (payload `"ok"`). -/
def tReplyAuth : Bytes :=
  ((serverReplyHandler toyPrims tSctxAuth [111, 107]).1).getOrElse []

/-- Reply packet for the second anonymous request (payload `"ok"`). -/
def tReplyB : Bytes :=
  ((serverReplyHandler toyPrims tSctxB [111, 107]).1).getOrElse []

/-- A request packet whose flags word `0x0004` sets only a reserved bit
(neither REPLY nor CLIENT_AUTH), with valid crypto for `tServer`. -/
def c7Packet : Bytes :=
  [0, 4, 1, 0] ++ tD ++
    toyPrims.aeadSeal tKdf.1 tKdf.2.1 [104, 105] [0, 4, 1, 0]

/-- A second such reserved-bit packet with a different payload. -/
def c7PacketB : Bytes :=
  [0, 4, 1, 0] ++ tD ++
    toyPrims.aeadSeal tKdf.1 tKdf.2.1 [1, 2, 3] [0, 4, 1, 0]

/-- A CLIENT_AUTH request whose AEAD payload is empty (shorter than the
64-byte identity prefix), valid under the anonymous key schedule that
any sender can compute from the server public key alone. -/
def c10Packet : Bytes :=
  [0, 2, 1, 0] ++ tD ++ toyPrims.aeadSeal tKdf.1 tKdf.2.1 [] [0, 2, 1, 0]

/-- Stream `tOs` with a trailing extra byte: same first 32 bytes. -/
def tOsExt : Bytes := tOs ++ [9]

/-! ## Helper lemmas -/

theorem goCopy_of_length_eq {dst src : Bytes} (h : src.length = dst.length) :
    goCopy dst src = src := by
  unfold goCopy
  rw [← h, List.take_length, List.drop_eq_nil_of_le (by omega), List.append_nil]

theorem clamp_length (b : Bytes) : (clamp b).length = b.length := by
  unfold clamp
  simp [List.length_set]

theorem generate_length {r : Option Bytes} {os e : Bytes}
    (h : generateX22519Private r os = some e) : e.length = 32 := by
  unfold generateX22519Private at h
  set src := (match r with | none => os | some r' => r') with hsrc
  by_cases hl : src.length < 32
  · simp [hl] at h
  · simp only [if_neg hl, Option.some.injEq] at h
    rw [← h, clamp_length, List.length_take]
    omega

theorem goSlice_header_dh (h0 h1 h2 h3 : Nat) (d ct : Bytes)
    (hd : d.length = 32) :
    goSlice (h0 :: h1 :: h2 :: h3 :: (d ++ ct)) 4 36 = some d := by
  unfold goSlice
  rw [if_pos]
  · simp only [List.drop_succ_cons, List.drop_zero]
    norm_num [List.take_left' hd]
  · constructor
    · omega
    · simp only [List.length_cons, List.length_append, hd]
      omega

theorem drop36_header_dh (h0 h1 h2 h3 : Nat) (d ct : Bytes)
    (hd : d.length = 32) :
    (h0 :: h1 :: h2 :: h3 :: (d ++ ct)).drop 36 = ct := by
  simp only [List.drop_succ_cons]
  rw [show (32 : Nat) = d.length from hd.symm, List.drop_left]

theorem take4_header (h0 h1 h2 h3 : Nat) (rest : Bytes) :
    (h0 :: h1 :: h2 :: h3 :: rest).take 4 = [h0, h1, h2, h3] := by
  simp [List.take_succ_cons]

theorem kdf_key_length (P : Prims) (d ss : Bytes)
    (hH : (P.sha256 (d ++ ss)).length = 32) :
    (kdfX25519AESGCM128 P d ss).1.length = 16 := by
  unfold kdfX25519AESGCM128
  simp [List.length_take, hH]

/-! ## Execution lemmas for the packing and unpacking paths -/

/-- Running `PackOutgoing` in anonymous mode: with a successful scalar
generation, the two DH steps and a 16-byte derived key, it emits
`[0,0,1,0] || dh_param || Seal(key, client_nonce, data, [0,0,1,0])` and a
fresh reply context capturing the key schedule. -/
theorem PackOutgoing_anon (P : Prims) (pk data os e d ss : Bytes)
    (hos : generateX22519Private none os = some e)
    (hd : P.dh e P.basepoint = some d)
    (hss : P.dh e pk = some ss)
    (hkey : (kdfX25519AESGCM128 P d ss).1.length = 16) :
    PackOutgoing P ⟨pk, none, none, none⟩ data os =
      .ok ([0, 0, 1, 0] ++ d ++
            P.aeadSeal (kdfX25519AESGCM128 P d ss).1
              (kdfX25519AESGCM128 P d ss).2.1 data [0, 0, 1, 0],
           ⟨some (kdfX25519AESGCM128 P d ss).1, none, d,
            (kdfX25519AESGCM128 P d ss).2.2⟩) := by
  unfold PackOutgoing
  rw [hos]
  simp only [hd, hss, hkey]
  norm_num [encodeHeader, take4_header, CipherSuiteX25519AESGCM]

/-- Running `PackOutgoing` in client-auth mode with empty caches: the client
public key and client-server product are computed, the plaintext is
extended to `client_pub || ephemeral || data`, and the packet is
`[0,2,1,0] || dh_param || Seal(key, client_nonce, extended, [0,2,1,0])`. -/
theorem PackOutgoing_auth (P : Prims) (pk csk data os e cpk cs d ss : Bytes)
    (hos : generateX22519Private none os = some e)
    (hcpk : P.dh csk P.basepoint = some cpk)
    (hcs : P.dh csk pk = some cs)
    (hd : P.dh e cpk = some d)
    (hss : P.dh e cs = some ss)
    (hcpklen : cpk.length = 32)
    (hkey : (kdfX25519AESGCM128 P d ss).1.length = 16) :
    PackOutgoing P ⟨pk, some csk, none, none⟩ data os =
      .ok ([0, 2, 1, 0] ++ d ++
            P.aeadSeal (kdfX25519AESGCM128 P d ss).1
              (kdfX25519AESGCM128 P d ss).2.1 (cpk ++ e ++ data) [0, 2, 1, 0],
           ⟨some (kdfX25519AESGCM128 P d ss).1, some cpk, d,
            (kdfX25519AESGCM128 P d ss).2.2⟩) := by
  have he : e.length = 32 := generate_length hos
  unfold PackOutgoing
  rw [hos]
  simp only [hcpk, hcs, hd, hss, hkey,
    goCopy_of_length_eq (show cpk.length = (List.replicate 32 (0 : Nat)).length by
      simp [hcpklen]),
    goCopy_of_length_eq (show e.length = (List.replicate 32 (0 : Nat)).length by
      simp [he])]
  norm_num [encodeHeader, take4_header, CipherSuiteX25519AESGCM,
    flagsClientAuth, show Nat.lor 0 2 = 2 from rfl]

/-- Running `UnpackIncoming` on a well-formed request without CLIENT_AUTH
(header bytes `a b 1 r` with both known flag bits of `a*256+b` clear):
it extracts `dh_param`, derives the key schedule from the server-side
DH, opens the ciphertext and returns the payload with no client key. -/
theorem UnpackIncoming_plain (P : Prims) (sk : Bytes) (a b r : Nat)
    (d ct ss payload : Bytes)
    (hf1 : Nat.land (a * 256 + b) flagsReply = 0)
    (hf2 : Nat.land (a * 256 + b) flagsClientAuth = 0)
    (hd : d.length = 32)
    (hss : P.dh sk d = some ss)
    (hkey : (kdfX25519AESGCM128 P d ss).1.length = 16)
    (hopen : P.aeadOpen (kdfX25519AESGCM128 P d ss).1
        (kdfX25519AESGCM128 P d ss).2.1 ct [a, b, 1, r] = some payload) :
    UnpackIncoming P ⟨sk⟩ (a :: b :: 1 :: r :: (d ++ ct)) =
      .ok (payload, none,
           ⟨some (kdfX25519AESGCM128 P d ss).1, false, d,
            (kdfX25519AESGCM128 P d ss).2.2⟩) := by
  unfold UnpackIncoming
  simp only [decodeHeader, hf1, goSlice_header_dh a b 1 r d ct hd, hss, hkey,
    drop36_header_dh a b 1 r d ct hd, take4_header, hopen, hf2]
  norm_num [CipherSuiteX25519AESGCM]

/-- Running `UnpackIncoming` on a well-formed CLIENT_AUTH request whose opened
payload is `client_pub(32) || ephemeral(32) || data` and whose embedded
pair reconstructs `dh_param`: it returns the trailing data and surfaces
the client public key. -/
theorem UnpackIncoming_auth (P : Prims) (sk : Bytes) (a b r : Nat)
    (d ct ss cpk e data : Bytes)
    (hf1 : Nat.land (a * 256 + b) flagsReply = 0)
    (hf2 : Nat.land (a * 256 + b) flagsClientAuth ≠ 0)
    (hd : d.length = 32)
    (hss : P.dh sk d = some ss)
    (hkey : (kdfX25519AESGCM128 P d ss).1.length = 16)
    (hopen : P.aeadOpen (kdfX25519AESGCM128 P d ss).1
        (kdfX25519AESGCM128 P d ss).2.1 ct [a, b, 1, r] =
          some (cpk ++ e ++ data))
    (hcpklen : cpk.length = 32)
    (helen : e.length = 32)
    (hcheck : P.dh e cpk = some d) :
    UnpackIncoming P ⟨sk⟩ (a :: b :: 1 :: r :: (d ++ ct)) =
      .ok (data, some cpk,
           ⟨some (kdfX25519AESGCM128 P d ss).1, true, d,
            (kdfX25519AESGCM128 P d ss).2.2⟩) := by
  have hslice0 : goSlice (cpk ++ e ++ data) 0 32 = some cpk := by
    unfold goSlice
    rw [if_pos]
    · rw [List.drop_zero, Nat.sub_zero, List.append_assoc,
        List.take_left' hcpklen]
    · constructor
      · omega
      · simp only [List.length_append, hcpklen]
        omega
  have hslice32 : goSlice (cpk ++ e ++ data) 32 64 = some e := by
    unfold goSlice
    rw [if_pos]
    · rw [List.append_assoc, show (32 : Nat) = cpk.length from hcpklen.symm,
        List.drop_left]
      norm_num [List.take_left' helen, hcpklen]
    · constructor
      · omega
      · simp only [List.length_append, hcpklen, helen]
        omega
  have hdrop64 : (cpk ++ e ++ data).drop 64 = data := by
    rw [show (64 : Nat) = (cpk ++ e).length by
      simp [List.length_append, hcpklen, helen], List.drop_left]
  unfold UnpackIncoming
  simp only [decodeHeader, hf1, goSlice_header_dh a b 1 r d ct hd, hss, hkey,
    drop36_header_dh a b 1 r d ct hd, take4_header, hopen, hf2,
    hslice0, hslice32, hdrop64, hcheck]
  norm_num [CipherSuiteX25519AESGCM]
  exact hf2

theorem encodeHeader_take4 (h : Header) :
    (encodeHeader h).take 4 = encodeHeader h := by
  simp [encodeHeader]

/-! ## Claim theorems -/

/-- C8: for every pair of 32-byte inputs `dh_param` and `shared_secret`,
the KDF returns, with `H = SHA-256(dh_param || shared_secret)`:
symmetric key `H[0..16]`, client nonce `H[16..24] || "RQST"` (12 bytes)
and server nonce `H[24..32] || "RPLY"` (12 bytes). -/
theorem C8_kdf_spec (P : Prims) (d s : Bytes)
    (hd : d.length = 32) (hs : s.length = 32)
    (hH : (P.sha256 (d ++ s)).length = 32) :
    kdfX25519AESGCM128 P d s = specKdf P d s
    ∧ (kdfX25519AESGCM128 P d s).1.length = 16
    ∧ (kdfX25519AESGCM128 P d s).2.1.length = 12
    ∧ (kdfX25519AESGCM128 P d s).2.2.length = 12 := by
  have h1 : (((P.sha256 (d ++ s)).drop 16).take 8).length =
      (List.replicate 8 (0 : Nat)).length := by
    simp [List.length_take, List.length_drop, hH]
  have h2 : (((P.sha256 (d ++ s)).drop 24).take 8).length =
      (List.replicate 8 (0 : Nat)).length := by
    simp [List.length_take, List.length_drop, hH]
  simp only [kdfX25519AESGCM128, specKdf]
  rw [goCopy_of_length_eq h1, goCopy_of_length_eq h2]
  refine ⟨rfl, ?_, ?_, ?_⟩
  · simp [List.length_take, hH]
  · simp only [List.length_append, h1, asciiRQST]
    simp
  · simp only [List.length_append, h2, asciiRPLY]
    simp

/-- C8 witness: the KDF equations hold at a concrete 32-byte input pair
over the toy primitives. -/
theorem C8_kdf_spec_witness :
    kdfX25519AESGCM128 toyPrims tD tSs = specKdf toyPrims tD tSs
    ∧ (kdfX25519AESGCM128 toyPrims tD tSs).1.length = 16
    ∧ (kdfX25519AESGCM128 toyPrims tD tSs).2.1.length = 12
    ∧ (kdfX25519AESGCM128 toyPrims tD tSs).2.2.length = 12 :=
  C8_kdf_spec toyPrims tD tSs (by decide) (by decide) (by decide)

/-- C5 (refuting the claim on the code): the code performs no length
validation.  A 5-byte request whose header parses and passes the flag
and suite checks makes `UnpackIncoming` panic at the `packetBytes[4:36]`
slice rather than return a malformed error, for every choice of
primitives and server key; a 5-byte reply packet likewise makes the
client reply decoder panic at `replyPacketBytes[4:36]`; and a 40-byte
request (shorter than the 52-byte minimum) reaches the DH primitive
instead of being rejected first, observed here with primitives whose DH
reports failure. -/
theorem C5_no_length_check :
    (∀ (P : Prims) (sk : Bytes),
      UnpackIncoming P ⟨sk⟩ [0, 0, 1, 0, 0] = .panic)
    ∧ (∀ (P : Prims) (key dhp nonce : Bytes),
        (clientReplyHandler P ⟨some key, none, dhp, nonce⟩
          [0, 1, 1, 0, 0]).1 = .panic)
    ∧ UnpackIncoming noDhPrims ⟨tSk⟩ ([0, 0, 1, 0] ++ List.replicate 36 9) =
        .error "DH failed" := by
  refine ⟨fun P sk => rfl, fun P key dhp nonce => rfl, rfl⟩

/-- C6 counterexample: a packet whose cipher-suite byte is `0x02` but
whose REPLY flag is set is answered with the is-a-reply error, not the
suite-unsupported error, refuting "regardless of its other header bits
(including the REPLY flag)". -/
theorem C6_counterexample :
    UnpackIncoming toyPrims tServer [0, 1, 2, 0] = .error "Packet is a reply"
    ∧ "Packet is a reply" ≠ "Unsuported cipher suite" := by
  refine ⟨rfl, by decide⟩

/-- C6 amended: a packet whose header parses with the REPLY bit clear
and a cipher-suite byte other than `0x01` yields the suite-unsupported
error; when the REPLY bit is set, the is-a-reply error takes precedence
over the suite check. -/
theorem C6_amended (P : Prims) (sk pkt : Bytes) (hdr : Header)
    (hparse : decodeHeader pkt = some hdr)
    (hreply : Nat.land hdr.flags flagsReply = 0)
    (hsuite : hdr.cipherSuite ≠ CipherSuiteX25519AESGCM) :
    UnpackIncoming P ⟨sk⟩ pkt = .error "Unsuported cipher suite" := by
  unfold UnpackIncoming
  rw [hparse]
  simp [hreply, hsuite]

/-- C6 amended witness: a flags-clear packet with suite byte `0x02` is
rejected as suite-unsupported. -/
theorem C6_amended_witness :
    UnpackIncoming toyPrims ⟨tSk⟩ [0, 0, 2, 0] =
      .error "Unsuported cipher suite" :=
  C6_amended toyPrims tSk [0, 0, 2, 0] ⟨0, 2, 0⟩ rfl (by decide) (by decide)

set_option maxRecDepth 8192 in
/-- C7 counterexample: a request whose flags word `0x0004` sets only a
reserved bit (bit 2; neither REPLY nor CLIENT_AUTH) is not rejected:
with valid crypto it unpacks successfully, so `UnpackIncoming` performs
no reserved-bit check. -/
theorem C7_counterexample :
    Nat.land 4 (Nat.lor flagsReply flagsClientAuth) = 0
    ∧ (4 : Nat) ≠ 0
    ∧ (UnpackIncoming toyPrims tServer c7Packet).isOk = true := by
  refine ⟨by decide, by decide, by decide⟩

/-- C7 amended: `UnpackIncoming` does not validate reserved flag bits.
A request whose flags have any combination of reserved bits set (REPLY
and CLIENT_AUTH clear, here a non-zero flags word `a*256+b`) passes
header validation and is processed exactly like a flags-clear request:
with valid crypto it unpacks successfully. -/
theorem C7_amended (P : Prims) (sk : Bytes) (a b r : Nat)
    (d ct ss payload : Bytes)
    (hres : a * 256 + b ≠ 0)
    (hf1 : Nat.land (a * 256 + b) flagsReply = 0)
    (hf2 : Nat.land (a * 256 + b) flagsClientAuth = 0)
    (hd : d.length = 32)
    (hss : P.dh sk d = some ss)
    (hkey : (kdfX25519AESGCM128 P d ss).1.length = 16)
    (hopen : P.aeadOpen (kdfX25519AESGCM128 P d ss).1
        (kdfX25519AESGCM128 P d ss).2.1 ct [a, b, 1, r] = some payload) :
    UnpackIncoming P ⟨sk⟩ (a :: b :: 1 :: r :: (d ++ ct)) =
      .ok (payload, none,
           ⟨some (kdfX25519AESGCM128 P d ss).1, false, d,
            (kdfX25519AESGCM128 P d ss).2.2⟩) :=
  UnpackIncoming_plain P sk a b r d ct ss payload hf1 hf2 hd hss hkey hopen

set_option maxRecDepth 8192 in
/-- C7 amended witness: a reserved-bit request (flags `0x0004`) with a
concrete payload unpacks successfully over the toy primitives. -/
theorem C7_amended_witness :
    UnpackIncoming toyPrims ⟨tSk⟩ (0 :: 4 :: 1 :: 0 :: (tD ++
        toyPrims.aeadSeal tKdf.1 tKdf.2.1 [1, 2, 3] [0, 4, 1, 0])) =
      .ok ([1, 2, 3], none,
           ⟨some (kdfX25519AESGCM128 toyPrims tD tSs).1, false, tD,
            (kdfX25519AESGCM128 toyPrims tD tSs).2.2⟩) :=
  C7_amended toyPrims tSk 0 4 0 tD
    (toyPrims.aeadSeal tKdf.1 tKdf.2.1 [1, 2, 3] [0, 4, 1, 0]) tSs [1, 2, 3]
    (by decide) (by decide) (by decide) (by decide) (by decide) (by decide)
    (by decide)

/-- C9 counterexample: `PackOutgoing` hands `generateX22519Private` a nil
reader, so its output depends on the OS randomness: two packs of the
same payload by the same client (with the injected-source configuration
unchanged, since none exists) produce different packets when the OS
stream differs. -/
theorem C9_counterexample :
    PackOutgoing toyPrims tAnonClient [104, 105] tOs ≠
      PackOutgoing toyPrims tAnonClient [104, 105] tOs2 := by
  decide

/-- C9 amended: `generateX22519Private` does use a caller-injected byte
source when one is supplied (its result is then independent of the OS
stream), but `PackOutgoing` always passes a nil reader, so its ephemeral
randomness always comes from the OS stream: its result depends only on
the first 32 bytes of that stream. -/
theorem C9_amended (P : Prims) (client : clientX25519AESGCM128)
    (data r os osB : Bytes)
    (htake : os.take 32 = osB.take 32) :
    generateX22519Private (some r) os = generateX22519Private (some r) osB
    ∧ PackOutgoing P client data os = PackOutgoing P client data osB := by
  have hgen : generateX22519Private none os =
      generateX22519Private none osB := by
    have hlen : min 32 os.length = min 32 osB.length := by
      have := congrArg List.length htake
      rwa [List.length_take, List.length_take] at this
    simp only [generateX22519Private]
    by_cases hl : os.length < 32
    · rw [if_pos hl, if_pos (by omega)]
    · rw [if_neg hl, if_neg (by omega), htake]
  refine ⟨rfl, ?_⟩
  unfold PackOutgoing
  rw [hgen]

/-- C9 amended witness: at a concrete injected source and two OS streams
agreeing on their first 32 bytes, the generator ignores the OS stream
and the pack result is unchanged. -/
theorem C9_amended_witness :
    generateX22519Private (some tOs2) tOs =
        generateX22519Private (some tOs2) tOsExt
    ∧ PackOutgoing toyPrims tAnonClient [104, 105] tOs =
        PackOutgoing toyPrims tAnonClient [104, 105] tOsExt :=
  C9_amended toyPrims tAnonClient [104, 105] tOs2 tOs tOsExt (by decide)

/-- C10: when `UnpackIncoming` AEAD-opens a CLIENT_AUTH request whose
decrypted payload is shorter than 64 bytes, it panics at the
`payload[:32]` / `payload[32:64]` slices instead of returning an
error. -/
theorem C10_short_auth_payload_panics (P : Prims) (sk : Bytes) (a b r : Nat)
    (d ct ss payload : Bytes)
    (hf1 : Nat.land (a * 256 + b) flagsReply = 0)
    (hf2 : Nat.land (a * 256 + b) flagsClientAuth ≠ 0)
    (hd : d.length = 32)
    (hss : P.dh sk d = some ss)
    (hkey : (kdfX25519AESGCM128 P d ss).1.length = 16)
    (hopen : P.aeadOpen (kdfX25519AESGCM128 P d ss).1
        (kdfX25519AESGCM128 P d ss).2.1 ct [a, b, 1, r] = some payload)
    (hshort : payload.length < 64) :
    UnpackIncoming P ⟨sk⟩ (a :: b :: 1 :: r :: (d ++ ct)) = .panic := by
  unfold UnpackIncoming
  simp only [decodeHeader, hf1, goSlice_header_dh a b 1 r d ct hd, hss, hkey,
    drop36_header_dh a b 1 r d ct hd, take4_header, hopen]
  norm_num [CipherSuiteX25519AESGCM]
  rw [if_neg hf2]
  by_cases h32 : payload.length < 32
  · rw [show goSlice payload 0 32 = none by
      unfold goSlice
      rw [if_neg (by omega)]]
  · rw [show goSlice payload 32 64 = none by
        unfold goSlice
        rw [if_neg (by omega)]]
    rcases goSlice payload 0 32 with _ | v
    · rfl
    · rfl

set_option maxRecDepth 8192 in
/-- C10 witness: a concrete CLIENT_AUTH packet with an empty AEAD
payload, built from the server public key alone, makes `UnpackIncoming`
panic over the toy primitives. -/
theorem C10_short_auth_payload_panics_witness :
    UnpackIncoming toyPrims ⟨tSk⟩ (0 :: 2 :: 1 :: 0 :: (tD ++
        toyPrims.aeadSeal tKdf.1 tKdf.2.1 [] [0, 2, 1, 0])) = .panic :=
  C10_short_auth_payload_panics toyPrims tSk 0 2 0 tD
    (toyPrims.aeadSeal tKdf.1 tKdf.2.1 [] [0, 2, 1, 0]) tSs []
    (by decide) (by decide) (by decide) (by decide) (by decide) (by decide)
    (by decide)

set_option maxRecDepth 8192 in
/-- C4 counterexample: the client reply decoder is not one-shot after a
failed first invocation.  A first call on a non-reply packet fails with
"Packet is not a reply", and a subsequent call on the genuine reply
succeeds — it does not fail with "reply handler already used". -/
theorem C4_counterexample :
    (clientReplyHandler toyPrims tCctx [0, 0, 1, 0]).1 =
        .error "Packet is not a reply"
    ∧ (clientReplyHandler toyPrims
        (clientReplyHandler toyPrims tCctx [0, 0, 1, 0]).2 tReply).1 =
        .ok [111, 107] := by
  refine ⟨by decide, by decide⟩

/-- C4 amended: the server reply encoder is one-shot — after any first
invocation, later invocations fail with "reply handler already used".
The client reply decoder is one-shot only once an invocation has reached
the AEAD-open step (passed all header and binding checks, observable as
the updated context having `aesgcm = none`): after that, later calls
fail with "reply handler already used"; but an invocation that fails an
earlier check (here: a packet whose parsed header lacks the REPLY bit)
returns "Packet is not a reply" and leaves the handler state unchanged
and still usable. -/
theorem C4_amended (P : Prims) (sctx : ServerReplyCtx)
    (cctx : ClientReplyCtx) (data dataB rUsed rNext rBad : Bytes)
    (ks kc : Bytes) (hdrB : Header)
    (hs : sctx.aesgcm = some ks)
    (hc : cctx.aesgcm = some kc)
    (hused : (clientReplyHandler P cctx rUsed).2.aesgcm = none)
    (hparseB : decodeHeader rBad = some hdrB)
    (hnotreply : Nat.land hdrB.flags flagsReply = 0) :
    (serverReplyHandler P (serverReplyHandler P sctx data).2 dataB).1 =
        .error "reply handler already used"
    ∧ (clientReplyHandler P (clientReplyHandler P cctx rUsed).2 rNext).1 =
        .error "reply handler already used"
    ∧ (clientReplyHandler P cctx rBad).1 = .error "Packet is not a reply"
    ∧ (clientReplyHandler P cctx rBad).2 = cctx := by
  refine ⟨?_, ?_, ?_, ?_⟩
  · show (serverReplyHandler P (serverReplyHandler P sctx data).2 dataB).1 =
      .error "reply handler already used"
    unfold serverReplyHandler
    rw [hs]
  · generalize hX : (clientReplyHandler P cctx rUsed).2 = X at hused
    unfold clientReplyHandler
    rw [hused]
  · unfold clientReplyHandler
    rw [hc, hparseB]
    simp [hnotreply]
  · unfold clientReplyHandler
    rw [hc, hparseB]
    simp [hnotreply]

set_option maxRecDepth 8192 in
/-- C4 amended witness: over the toy primitives, a used server encoder
and a used client decoder refuse a second call, and a failed non-reply
first call leaves the decoder unchanged. -/
theorem C4_amended_witness :
    (serverReplyHandler toyPrims
        (serverReplyHandler toyPrims tSctx [111, 107]).2 [1]).1 =
        .error "reply handler already used"
    ∧ (clientReplyHandler toyPrims
        (clientReplyHandler toyPrims tCctx tReply).2 tReply).1 =
        .error "reply handler already used"
    ∧ (clientReplyHandler toyPrims tCctx [0, 0, 1, 0]).1 =
        .error "Packet is not a reply"
    ∧ (clientReplyHandler toyPrims tCctx [0, 0, 1, 0]).2 = tCctx :=
  C4_amended toyPrims tSctx tCctx [111, 107] [1] tReply tReply [0, 0, 1, 0]
    tKdf.1 tKdf.1 ⟨0, 1, 0⟩ rfl rfl (by decide) rfl (by decide)

/-- C1: for every server keypair and payload, a request packed by a
client holding the server public key and unpacked by the server holding
the private key yields the original payload; anonymously the returned
client public key is absent, and with a client private key `csk` it
equals `X25519(csk, basepoint)`.  DH agreement, the 32-byte output
lengths and the AEAD round-trip are assumed at the concrete values the
execution derives (they are facts of the real primitives, not of this
code). -/
theorem C1_request_round_trip (P : Prims)
    (sk pk csk cpk cs e p os d1 ss1 d2 ss2 : Bytes)
    (hos : generateX22519Private none os = some e)
    (hpk : P.dh sk P.basepoint = some pk)
    (hd1 : P.dh e P.basepoint = some d1)
    (hss1c : P.dh e pk = some ss1)
    (hss1s : P.dh sk d1 = some ss1)
    (hd1len : d1.length = 32)
    (hH1 : (P.sha256 (d1 ++ ss1)).length = 32)
    (hopen1 : P.aeadOpen (kdfX25519AESGCM128 P d1 ss1).1
        (kdfX25519AESGCM128 P d1 ss1).2.1
        (P.aeadSeal (kdfX25519AESGCM128 P d1 ss1).1
          (kdfX25519AESGCM128 P d1 ss1).2.1 p [0, 0, 1, 0])
        [0, 0, 1, 0] = some p)
    (hcpk : P.dh csk P.basepoint = some cpk)
    (hcs : P.dh csk pk = some cs)
    (hcpklen : cpk.length = 32)
    (hd2 : P.dh e cpk = some d2)
    (hss2c : P.dh e cs = some ss2)
    (hss2s : P.dh sk d2 = some ss2)
    (hd2len : d2.length = 32)
    (hH2 : (P.sha256 (d2 ++ ss2)).length = 32)
    (hopen2 : P.aeadOpen (kdfX25519AESGCM128 P d2 ss2).1
        (kdfX25519AESGCM128 P d2 ss2).2.1
        (P.aeadSeal (kdfX25519AESGCM128 P d2 ss2).1
          (kdfX25519AESGCM128 P d2 ss2).2.1 (cpk ++ e ++ p) [0, 2, 1, 0])
        [0, 2, 1, 0] = some (cpk ++ e ++ p)) :
    roundtrip P ⟨sk⟩ ⟨pk, none, none, none⟩ p os = .ok (p, none)
    ∧ roundtrip P ⟨sk⟩ ⟨pk, some csk, none, none⟩ p os = .ok (p, some cpk) := by
  constructor
  · unfold roundtrip
    rw [PackOutgoing_anon P pk p os e d1 ss1 hos hd1 hss1c
      (kdf_key_length P d1 ss1 hH1)]
    have hunpack := UnpackIncoming_plain P sk 0 0 0 d1
      (P.aeadSeal (kdfX25519AESGCM128 P d1 ss1).1
        (kdfX25519AESGCM128 P d1 ss1).2.1 p [0, 0, 1, 0]) ss1 p
      (by decide) (by decide) hd1len hss1s (kdf_key_length P d1 ss1 hH1)
      hopen1
    simp only [List.append_assoc, List.cons_append, List.nil_append] at hunpack ⊢
    rw [hunpack]
  · unfold roundtrip
    rw [PackOutgoing_auth P pk csk p os e cpk cs d2 ss2 hos hcpk hcs hd2 hss2c
      hcpklen (kdf_key_length P d2 ss2 hH2)]
    have hunpack := UnpackIncoming_auth P sk 0 2 0 d2
      (P.aeadSeal (kdfX25519AESGCM128 P d2 ss2).1
        (kdfX25519AESGCM128 P d2 ss2).2.1 (cpk ++ e ++ p) [0, 2, 1, 0])
      ss2 cpk e p
      (by decide) (by decide) hd2len hss2s (kdf_key_length P d2 ss2 hH2)
      hopen2 hcpklen (generate_length hos) hd2
    simp only [List.append_assoc, List.cons_append, List.nil_append] at hunpack ⊢
    rw [hunpack]

set_option maxRecDepth 16384 in
/-- C1 witness: a concrete round-trip over the toy primitives in both
modes, with payload `"hi"`. -/
theorem C1_request_round_trip_witness :
    roundtrip toyPrims ⟨tSk⟩ ⟨tPk, none, none, none⟩ [104, 105] tOs =
        .ok ([104, 105], none)
    ∧ roundtrip toyPrims ⟨tSk⟩ ⟨tPk, some tCsk, none, none⟩ [104, 105] tOs =
        .ok ([104, 105], some tCpk) :=
  C1_request_round_trip toyPrims tSk tPk tCsk tCpk tCs tE [104, 105] tOs
    tD tSs tDAuth tSsAuth
    (by decide) (by decide) (by decide) (by decide) (by decide) (by decide)
    (by decide) (by decide) (by decide) (by decide) (by decide) (by decide)
    (by decide) (by decide) (by decide) (by decide) (by decide)

/-- C2: for every request/reply round in either mode, the reply packet
produced by the server reply encoder decodes, through the matching
request's reply decoder, to exactly the reply payload.  "Matching" is
expressed through the captured contexts: same key schedule, same
`dh_param`, same server nonce, and a client-auth mode agreeing with the
request's; the AEAD round-trip is assumed at the derived values. -/
theorem C2_reply_round_trip (P : Prims) (sctx : ServerReplyCtx)
    (cctx : ClientReplyCtx) (key r reply : Bytes)
    (hks : sctx.aesgcm = some key)
    (hkc : cctx.aesgcm = some key)
    (hdp : cctx.dhParam = sctx.dhParam)
    (hdlen : sctx.dhParam.length = 32)
    (hn : cctx.serverNonce = sctx.serverNonce)
    (hmode : cctx.clientPublicKey.isNone = !sctx.hasClientAuth)
    (hrep : (serverReplyHandler P sctx r).1 = .ok reply)
    (hopen : P.aeadOpen key sctx.serverNonce
        (P.aeadSeal key sctx.serverNonce r
          (encodeHeader ⟨serverReplyFlags sctx.hasClientAuth,
            CipherSuiteX25519AESGCM, 0⟩))
        (encodeHeader ⟨serverReplyFlags sctx.hasClientAuth,
          CipherSuiteX25519AESGCM, 0⟩) = some r) :
    (clientReplyHandler P cctx reply).1 = .ok r := by
  have hreply : reply =
      encodeHeader ⟨serverReplyFlags sctx.hasClientAuth,
          CipherSuiteX25519AESGCM, 0⟩ ++ sctx.dhParam ++
        P.aeadSeal key sctx.serverNonce r
          ((encodeHeader ⟨serverReplyFlags sctx.hasClientAuth,
            CipherSuiteX25519AESGCM, 0⟩).take 4) := by
    have h := hrep
    unfold serverReplyHandler at h
    rw [hks] at h
    exact ((Outcome.ok.injEq _ _).mp h).symm
  subst hreply
  rw [encodeHeader_take4]
  set f := serverReplyFlags sctx.hasClientAuth with hf
  have hf256 : f < 256 := by
    rw [hf]
    cases sctx.hasClientAuth <;> decide
  have henc : encodeHeader ⟨f, CipherSuiteX25519AESGCM, 0⟩ =
      [0, f, 1, 0] := by
    simp [encodeHeader, CipherSuiteX25519AESGCM, Nat.div_eq_of_lt hf256,
      Nat.mod_eq_of_lt hf256]
  have hlr : ¬ Nat.land f flagsReply = 0 := by
    rw [hf]
    cases sctx.hasClientAuth <;> decide
  have hla : (Nat.land f flagsClientAuth == 0) = !sctx.hasClientAuth := by
    rw [hf]
    cases sctx.hasClientAuth <;> decide
  rw [henc] at hopen ⊢
  unfold clientReplyHandler
  rw [hkc]
  simp only [List.cons_append, List.nil_append, decodeHeader, Nat.zero_mul,
    Nat.zero_add, goSlice_header_dh 0 f 1 0 sctx.dhParam _ hdlen,
    drop36_header_dh 0 f 1 0 sctx.dhParam _ hdlen, take4_header,
    hlr, hla, hmode, hdp, hn, hopen]
  norm_num [CipherSuiteX25519AESGCM]

set_option maxRecDepth 16384 in
/-- C2 witness: concrete reply round-trips over the toy primitives, in
both the anonymous and the client-auth mode, with reply payload
`"ok"`. -/
theorem C2_reply_round_trip_witness :
    (clientReplyHandler toyPrims tCctx tReply).1 = .ok [111, 107]
    ∧ (clientReplyHandler toyPrims tCctxAuth tReplyAuth).1 =
        .ok [111, 107] :=
  ⟨C2_reply_round_trip toyPrims tSctx tCctx tKdf.1 [111, 107] tReply
      rfl rfl rfl (by decide) rfl (by decide) (by decide) (by decide),
   C2_reply_round_trip toyPrims tSctxAuth tCctxAuth tKdfAuth.1 [111, 107]
      tReplyAuth rfl rfl rfl (by decide) rfl (by decide) (by decide)
      (by decide)⟩

/-- C3: feeding the reply generated for one request into the reply
decoder of a different request of the same mode whose `dh_param`
differs (the formal stand-in for distinct ephemeral scalars, whose
`dh_param`s differ except with negligible probability) returns the
binding-mismatch error ("Request/reply mismatch"), never a successful
decode. -/
theorem C3_binding_mismatch (P : Prims) (cctx1 : ClientReplyCtx)
    (sctx2 : ServerReplyCtx) (k k2 r reply2 : Bytes)
    (hk : cctx1.aesgcm = some k)
    (hk2 : sctx2.aesgcm = some k2)
    (hrep : (serverReplyHandler P sctx2 r).1 = .ok reply2)
    (hdlen : sctx2.dhParam.length = 32)
    (hne : sctx2.dhParam ≠ cctx1.dhParam)
    (hmode : cctx1.clientPublicKey.isNone = !sctx2.hasClientAuth) :
    (clientReplyHandler P cctx1 reply2).1 =
      .error "Request/reply mismatch" := by
  have hreply : reply2 =
      encodeHeader ⟨serverReplyFlags sctx2.hasClientAuth,
          CipherSuiteX25519AESGCM, 0⟩ ++ sctx2.dhParam ++
        P.aeadSeal k2 sctx2.serverNonce r
          ((encodeHeader ⟨serverReplyFlags sctx2.hasClientAuth,
            CipherSuiteX25519AESGCM, 0⟩).take 4) := by
    have h := hrep
    unfold serverReplyHandler at h
    rw [hk2] at h
    exact ((Outcome.ok.injEq _ _).mp h).symm
  subst hreply
  set f := serverReplyFlags sctx2.hasClientAuth with hf
  have hf256 : f < 256 := by
    rw [hf]
    cases sctx2.hasClientAuth <;> decide
  have henc : encodeHeader ⟨f, CipherSuiteX25519AESGCM, 0⟩ =
      [0, f, 1, 0] := by
    simp [encodeHeader, CipherSuiteX25519AESGCM, Nat.div_eq_of_lt hf256,
      Nat.mod_eq_of_lt hf256]
  have hlr : ¬ Nat.land f flagsReply = 0 := by
    rw [hf]
    cases sctx2.hasClientAuth <;> decide
  have hla : (Nat.land f flagsClientAuth == 0) = !sctx2.hasClientAuth := by
    rw [hf]
    cases sctx2.hasClientAuth <;> decide
  rw [henc]
  unfold clientReplyHandler
  rw [hk]
  simp only [List.cons_append, List.nil_append, decodeHeader, Nat.zero_mul,
    Nat.zero_add, goSlice_header_dh 0 f 1 0 sctx2.dhParam _ hdlen,
    hlr, hla, hmode]
  norm_num [CipherSuiteX25519AESGCM, hne]

set_option maxRecDepth 16384 in
/-- C3 witness: the reply of a second concrete request, fed to the first
request's decoder over the toy primitives, yields the binding-mismatch
error. -/
theorem C3_binding_mismatch_witness :
    (clientReplyHandler toyPrims tCctx tReplyB).1 =
      .error "Request/reply mismatch" :=
  C3_binding_mismatch toyPrims tCctx tSctxB tKdf.1 tKdfB.1 [111, 107]
    tReplyB rfl rfl (by decide) (by decide) (by decide) (by decide)

end Gopssst